import Mathlib

/-!
Shallow embedding of the Smash PDF-tool backend (`src-tauri/src`), a thin
orchestration layer over the Ghostscript (`gs`) and `qpdf` command-line
binaries.  File-system state and external process behaviour are abstracted
into an explicit environment `Env`; every command returns its result
together with the list of external effects (process invocations and the one
file copy) it performed, in order.  Machine integers (`u32`, `u64`) are
modelled as `Nat`; the `f64` savings percentage is modelled as `ℚ`.
Path handling follows the Unix semantics of Rust's `std::path`.
-/

set_option autoImplicit false

deriving instance DecidableEq for Except

namespace Smash

/-- An external effect: one process invocation of `gs`/`qpdf` with the
user-relevant arguments, or the single `std::fs::copy` call used by
`extract_page_list`.  Mirrors the argument lists built in
`ghostscript.rs` and `qpdf.rs`. -/
inductive Eff where
  | gsCompress (input output preset : String)
  | gsMerge (inputs : List String) (output : String)
  | gsExtract (input output : String) (first last : Nat)
  | gsPageCount (input : String)
  | gsPageCountAlt (input : String)
  | qpdfEncrypt (input output userPw ownerPw : String)
  | qpdfDecrypt (input output password : String)
  | fsCopy (src dst : String)
  deriving DecidableEq

/-- The environment a command runs in: which executables discovery finds,
the file system, and the outcome of each possible process invocation.
`run e` models `Command::status()` (`.error` = the spawn itself failed,
`.ok code` = the process ran and `status.code()` was `code`; `none` means
killed by a signal, success is `some 0`).  `runOut e` models
`Command::output()` and additionally yields stdout and stderr. -/
structure Env where
  gs : Option String
  qpdf : Option String
  pathExists : String → Bool
  metadataLen : String → Except String Nat
  createDir : String → Except String Unit
  tempdir : Except String String
  copyFile : String → String → Except String Unit
  run : Eff → Except String (Option Int)
  runOut : Eff → Except String (Option Int × String × String)

/-- `CompressionResult` from `commands/utils.rs`; `savings_percent : f64`
is modelled as `ℚ`. -/
structure CompressionResult where
  output_path : String
  original_size : Nat
  compressed_size : Nat
  savings_percent : ℚ
  deriving DecidableEq

/-- `FileResult` from `commands/utils.rs`. -/
structure FileResult where
  output_path : String
  size : Nat
  deriving DecidableEq

/-- `SplitResult` from `commands/utils.rs`. -/
structure SplitResult where
  output_paths : List String
  total_pages : Nat
  deriving DecidableEq

/-- `SplitOptions` from `commands/utils.rs` (`u32` as `Nat`). -/
structure SplitOptions where
  mode : String
  range_start : Option Nat
  range_end : Option Nat
  pages : Option (List Nat)
  every_n : Option Nat

/-! ### Unix path semantics of Rust `std::path`, on `List Char` -/

/-- Drop trailing `/` characters. -/
def stripSlashes (cs : List Char) : List Char :=
  (cs.reverse.dropWhile (fun c => c == '/')).reverse

/-- `Path::file_name`: the final normal component; `none` for an empty
path, the root, `.` or `..`. -/
def fileNameC (cs : List Char) : Option (List Char) :=
  let t := stripSlashes cs
  let nm := (t.reverse.takeWhile (fun c => c != '/')).reverse
  if nm = [] ∨ nm = ['.'] ∨ nm = ['.', '.'] then none else some nm

/-- Split a file name into `(stem, extension)` the way
`Path::file_stem` / `Path::extension` do: the split is at the last `.`,
except that a `.` at index 0 does not count. -/
def extSplit (nm : List Char) : List Char × Option (List Char) :=
  let r := nm.reverse
  let pre := r.takeWhile (fun c => c != '.')
  if pre.length = r.length then (nm, none)
  else
    let stemR := r.drop (pre.length + 1)
    if stemR = [] then (nm, none)
    else (stemR.reverse, some pre.reverse)

/-- `Path::extension` on a path given as a string. -/
def extensionStr (s : String) : Option String :=
  (fileNameC s.data).bind (fun nm => (extSplit nm).2.map String.mk)

/-- `path.file_stem().unwrap_or_default().to_string_lossy()`. -/
def fileStemD (s : String) : String :=
  match fileNameC s.data with
  | none => ""
  | some nm => String.mk (extSplit nm).1

/-- `Path::parent` (as displayed): strip the final component.  `some ""`
for a bare relative file name, `none` for the root or the empty path. -/
def parentOpt (s : String) : Option String :=
  let t := stripSlashes s.data
  if t = [] then none
  else
    let r := (t.reverse.dropWhile (fun c => c != '/')).reverse
    if r = [] then some ""
    else
      let r2 := stripSlashes r
      if r2 = [] then some "/" else some (String.mk r2)

/-- `path.parent().unwrap_or(Path::new("."))` as a string. -/
def parentD (s : String) : String := (parentOpt s).getD "."

/-- `PathBuf::join` followed by `to_string_lossy`. -/
def joinPath (l r : String) : String :=
  if r.data.head? = some '/' then r
  else if l = "" then r
  else if l.data.getLast? = some '/' then l ++ r
  else l ++ "/" ++ r

/-- ASCII lower-casing of one character. -/
def asciiLower (c : Char) : Char :=
  if 65 ≤ c.toNat ∧ c.toNat ≤ 90 then Char.ofNat (c.toNat + 32) else c

/-- Rust `str::eq_ignore_ascii_case`. -/
def eqIgnoreAsciiCase (a b : String) : Bool :=
  a.data.map asciiLower == b.data.map asciiLower

/-- Rust `str::trim` (whitespace at both ends). -/
def trimStr (s : String) : String :=
  String.mk (((s.data.dropWhile Char.isWhitespace).reverse.dropWhile
    Char.isWhitespace).reverse)

/-- Split a character list at every newline (plain split: `n` newlines
give `n + 1` parts). -/
def splitNl : List Char → List (List Char)
  | [] => [[]]
  | c :: cs =>
    if c = '\n' then [] :: splitNl cs
    else
      match splitNl cs with
      | [] => [[c]]
      | p :: ps => (c :: p) :: ps

/-- Drop one trailing carriage return. -/
def stripCr (cs : List Char) : List Char :=
  if cs.getLast? = some '\r' then cs.dropLast else cs

/-- Rust `str::lines` (here only applied to already-trimmed strings). -/
def linesStr (s : String) : List String :=
  if s.data = [] then []
  else
    let parts := splitNl s.data
    let parts := if s.data.getLast? = some '\n' then parts.dropLast else parts
    parts.map (fun cs => String.mk (stripCr cs))

/-- The numeric value of a decimal digit character. -/
def digitVal (c : Char) : Option Nat :=
  if 48 ≤ c.toNat ∧ c.toNat ≤ 57 then some (c.toNat - 48) else none

/-- Fold a digit string to a number; `none` on any non-digit. -/
def digitsToNat (cs : List Char) : Option Nat :=
  cs.foldl
    (fun acc c =>
      match acc, digitVal c with
      | some a, some d => some (a * 10 + d)
      | _, _ => none)
    (some 0)

/-- Rust `str::parse::<u32>()`: optional leading `+`, then decimal digits,
value below `2^32`. -/
def parseU32 (s : String) : Option Nat :=
  let cs := match s.data with
    | '+' :: rest => rest
    | cs => cs
  if cs.isEmpty then none
  else
    match digitsToNat cs with
    | some v => if v < 2 ^ 32 then some v else none
    | none => none

/-! ### `ghostscript.rs` -/

namespace ghostscript

/-- Error returned by `get_gs` when discovery fails (the Linux `cfg!`
branch of the install hint). -/
def gsNotFoundMsg : String :=
  "Ghostscript not found. Install with: sudo apt install ghostscript"

/-- Rust Debug formatting of `status.code()`, an `Option<i32>`. -/
def fmtOptCode : Option Int → String
  | some c => "Some(" ++ toString c ++ ")"
  | none => "None"

/-- `ghostscript::compress`. -/
def compress (env : Env) (input output preset : String) :
    Except String Unit × List Eff :=
  match env.gs with
  | none => (.error gsNotFoundMsg, [])
  | some _ =>
    let p := Eff.gsCompress input output preset
    match env.run p with
    | .error e => (.error ("Failed to run Ghostscript: " ++ e), [p])
    | .ok code =>
      if code = some 0 then (.ok (), [p])
      else
        (.error ("Ghostscript compression failed with exit code: " ++
          fmtOptCode code), [p])

/-- `ghostscript::merge`. -/
def merge (env : Env) (inputs : List String) (output : String) :
    Except String Unit × List Eff :=
  match env.gs with
  | none => (.error gsNotFoundMsg, [])
  | some _ =>
    let p := Eff.gsMerge inputs output
    match env.run p with
    | .error e => (.error ("Failed to run Ghostscript: " ++ e), [p])
    | .ok code =>
      if code = some 0 then (.ok (), [p])
      else
        (.error ("Ghostscript merge failed with exit code: " ++
          fmtOptCode code), [p])

/-- `ghostscript::extract_pages`. -/
def extract_pages (env : Env) (input output : String) (start stop : Nat) :
    Except String Unit × List Eff :=
  match env.gs with
  | none => (.error gsNotFoundMsg, [])
  | some _ =>
    let p := Eff.gsExtract input output start stop
    match env.run p with
    | .error e => (.error ("Failed to run Ghostscript: " ++ e), [p])
    | .ok code =>
      if code = some 0 then (.ok (), [p])
      else
        (.error ("Failed to extract pages " ++ toString start ++ "-" ++
          toString stop), [p])

/-- `ghostscript::get_page_count_alternative`. -/
def get_page_count_alternative (env : Env) (input : String) :
    Except String Nat × List Eff :=
  match env.gs with
  | none => (.error gsNotFoundMsg, [])
  | some _ =>
    let p := Eff.gsPageCountAlt input
    match env.runOut p with
    | .error e => (.error ("Failed to run Ghostscript: " ++ e), [p])
    | .ok (code, sout, serr) =>
      if code = some 0 then
        let count_str := trimStr sout
        let line := trimStr ((linesStr count_str).getLastD count_str)
        match parseU32 line with
        | some v => (.ok v, [p])
        | none =>
          (.error ("Failed to parse page count from: " ++ count_str), [p])
      else (.error ("Failed to get page count: " ++ serr), [p])

/-- `ghostscript::get_page_count`: the primary query; on unsuccessful exit
it falls back to `get_page_count_alternative`. -/
def get_page_count (env : Env) (input : String) :
    Except String Nat × List Eff :=
  match env.gs with
  | none => (.error gsNotFoundMsg, [])
  | some _ =>
    let p := Eff.gsPageCount input
    match env.runOut p with
    | .error e => (.error ("Failed to run Ghostscript: " ++ e), [p])
    | .ok (code, sout, _) =>
      if code = some 0 then
        let count_str := trimStr sout
        match parseU32 count_str with
        | some v => (.ok v, [p])
        | none => (.error ("Failed to parse page count: " ++ count_str), [p])
      else
        let alt := get_page_count_alternative env input
        (alt.1, p :: alt.2)

/-- The loop at the heart of `ghostscript::extract_page_list`: extract each
requested page, in list order, into its own file under the temp directory,
collecting the created file names. -/
def extractLoop (env : Env) (input td : String) :
    List Nat → Except String Unit × List Eff × List String
  | [] => (.ok (), [], [])
  | page :: rest =>
    let temp_str := joinPath td ("page_" ++ toString page ++ ".pdf")
    match extract_pages env input temp_str page page with
    | (.error e, tr) => (.error e, tr, [])
    | (.ok (), tr) =>
      let (r, tr2, files) := extractLoop env input td rest
      (r, tr ++ tr2, temp_str :: files)

/-- `ghostscript::extract_page_list`: extract every page of the list into
its own temp file, then copy (one file) or merge (several) into the
output. -/
def extract_page_list (env : Env) (input output : String)
    (pages : List Nat) : Except String Unit × List Eff :=
  match env.gs with
  | none => (.error gsNotFoundMsg, [])
  | some _ =>
    match env.tempdir with
    | .error e => (.error ("Failed to create temp directory: " ++ e), [])
    | .ok td =>
      match extractLoop env input td pages with
      | (.error e, tr, _) => (.error e, tr)
      | (.ok (), tr, temp_files) =>
        if temp_files.length = 1 then
          match env.copyFile (temp_files.headI) output with
          | .error e => (.error ("Failed to copy output: " ++ e),
              tr ++ [Eff.fsCopy (temp_files.headI) output])
          | .ok () => (.ok (), tr ++ [Eff.fsCopy (temp_files.headI) output])
        else
          match merge env temp_files output with
          | (.error e, tr2) => (.error e, tr ++ tr2)
          | (.ok (), tr2) => (.ok (), tr ++ tr2)

end ghostscript

/-! ### `qpdf.rs` -/

namespace qpdf

/-- Error returned by `get_qpdf` when discovery fails (the Linux `cfg!`
branch of the install hint). -/
def qpdfNotFoundMsg : String :=
  "qpdf not found. Install with: sudo apt install qpdf"

/-- `qpdf::encrypt`. -/
def encrypt (env : Env) (input output user_password owner_password : String) :
    Except String Unit × List Eff :=
  match env.qpdf with
  | none => (.error qpdfNotFoundMsg, [])
  | some _ =>
    let p := Eff.qpdfEncrypt input output user_password owner_password
    match env.run p with
    | .error e => (.error ("Failed to run qpdf: " ++ e), [p])
    | .ok code =>
      if code = some 0 then (.ok (), [p])
      else
        (.error ("qpdf encryption failed with exit code: " ++
          ghostscript.fmtOptCode code), [p])

/-- `qpdf::decrypt`. -/
def decrypt (env : Env) (input output password : String) :
    Except String Unit × List Eff :=
  match env.qpdf with
  | none => (.error qpdfNotFoundMsg, [])
  | some _ =>
    let p := Eff.qpdfDecrypt input output password
    match env.run p with
    | .error e => (.error ("Failed to run qpdf: " ++ e), [p])
    | .ok code =>
      if code = some 0 then (.ok (), [p])
      else
        (.error "Failed to decrypt PDF. Check if the password is correct.",
          [p])

end qpdf

/-! ### `commands/utils.rs` -/

/-- `utils::generate_output_path`: the input's parent directory joined
with the input's stem, the suffix, and `.pdf`. -/
def generate_output_path (input_path suffix : String) : String :=
  joinPath (parentD input_path) (fileStemD input_path ++ suffix ++ ".pdf")

/-- `utils::validate_pdf`: the file must exist and its extension must be
`pdf` up to ASCII case. -/
def validate_pdf (env : Env) (path : String) : Except String Unit :=
  if env.pathExists path then
    match extensionStr path with
    | some ext =>
      if eqIgnoreAsciiCase ext "pdf" then .ok ()
      else .error "File is not a PDF"
    | none => .error "File is not a PDF"
  else .error ("File not found: " ++ path)

/-! ### `commands/compress.rs` -/

/-- `compress::compress_pdf`. -/
def compress_pdf (env : Env) (input_path : String)
    (output_path : Option String) (preset : String) :
    Except String CompressionResult × List Eff :=
  match validate_pdf env input_path with
  | .error e => (.error e, [])
  | .ok () =>
    if !(["screen", "ebook", "printer", "prepress"].contains preset) then
      (.error ("Invalid preset \x27" ++ preset ++
        "\x27. Valid options: [\"screen\", \"ebook\", \"printer\", \"prepress\"]"),
        [])
    else
      let output :=
        output_path.getD (generate_output_path input_path "-compressed")
      match env.metadataLen input_path with
      | .error e => (.error ("Failed to read input file: " ++ e), [])
      | .ok original_size =>
        match ghostscript.compress env input_path output preset with
        | (.error e, tr) => (.error e, tr)
        | (.ok (), tr) =>
          match env.metadataLen output with
          | .error e => (.error ("Failed to read output file: " ++ e), tr)
          | .ok compressed_size =>
            let savings_percent : ℚ :=
              if original_size > 0 then
                (((original_size : ℚ) - (compressed_size : ℚ)) /
                  (original_size : ℚ)) * 100
              else 0
            (.ok ⟨output, original_size, compressed_size, savings_percent⟩,
              tr)

/-! ### `commands/merge.rs` -/

/-- The `for path in &input_paths { validate_pdf(path)?; }` loop. -/
def validateAll (env : Env) : List String → Except String Unit
  | [] => .ok ()
  | p :: ps =>
    match validate_pdf env p with
    | .error e => .error e
    | .ok () => validateAll env ps

/-- `merge::merge_pdfs`. -/
def merge_pdfs (env : Env) (input_paths : List String)
    (output_path : String) : Except String FileResult × List Eff :=
  if input_paths.length < 2 then
    (.error "At least 2 PDF files are required for merging", [])
  else
    match validateAll env input_paths with
    | .error e => (.error e, [])
    | .ok () =>
      let dirOk : Except String Unit :=
        match parentOpt output_path with
        | some dir =>
          if !env.pathExists dir && dir ≠ "" then
            .error ("Output directory does not exist: " ++ dir)
          else .ok ()
        | none => .ok ()
      match dirOk with
      | .error e => (.error e, [])
      | .ok () =>
        match ghostscript.merge env input_paths output_path with
        | (.error e, tr) => (.error e, tr)
        | (.ok (), tr) =>
          match env.metadataLen output_path with
          | .error e => (.error ("Failed to read output file: " ++ e), tr)
          | .ok size => (.ok ⟨output_path, size⟩, tr)

/-! ### `commands/split.rs` -/
/-- The `while start <= total_pages` loop of the `"every-n"` branch of
`split_pdf`, for chunk size `n = npred + 1` (the branch guarantees
`n >= 1`): extract `[start, min (start + n - 1) total]`, then continue at
the page after the chunk with the next part number.

The loop arithmetic is machine arithmetic: `start`, `n` and the chunk
end are `u32` and `part` is `i32`, so `start + n`, `end + 1` and
`part + 1` can overflow.  This embedding models Rust checked
(debug-profile) overflow semantics: an overflowing addition panics,
represented by a `none` result (carrying the effects performed so far).
A release build wraps instead, after which the loop runs forever or
walks wrapped garbage ranges, so no overflowing execution completes
normally in either profile; under the no-overflow hypotheses of the
theorems below both profiles coincide with this model. -/
def splitEveryLoop (env : Env) (input stem outdir : String) (npred : Nat)
    (total : Nat) (start part : Nat) :
    Option (Except String Unit) × List Eff × List String :=
  if start ≤ total then
    if 2 ^ 32 ≤ start + (npred + 1) then (none, [], [])
    else
      let stop := min (start + npred) total
      let output_path :=
        joinPath outdir (stem ++ "_part" ++ toString part ++ ".pdf")
      match ghostscript.extract_pages env input output_path start stop with
      | (.error e, tr) => (some (.error e), tr, [])
      | (.ok (), tr) =>
        if 2 ^ 32 ≤ stop + 1 then (none, tr, [output_path])
        else if 2 ^ 31 ≤ part + 1 then (none, tr, [output_path])
        else
          let (r, tr2, ps) :=
            splitEveryLoop env input stem outdir npred total (stop + 1)
              (part + 1)
          (r, tr ++ tr2, output_path :: ps)
  else (some (.ok ()), [], [])
termination_by total + 1 - start
decreasing_by
  have h1 : start ≤ min (start + npred) total := le_min (Nat.le_add_right _ _)
    (by assumption)
  omega

/-- `split::split_pdf`.  An arithmetic-overflow panic inside the
every-n loop aborts the command; it is modelled as the error value
`attempt to add with overflow` (the Rust panic message). -/
def split_pdf (env : Env) (input_path output_dir : String)
    (options : SplitOptions) : Except String SplitResult × List Eff :=
  match validate_pdf env input_path with
  | .error e => (.error e, [])
  | .ok () =>
    match (if env.pathExists output_dir then Except.ok ()
        else env.createDir output_dir) with
    | .error e => (.error ("Failed to create output directory: " ++ e), [])
    | .ok () =>
      match ghostscript.get_page_count env input_path with
      | (.error e, tr) => (.error e, tr)
      | (.ok total_pages, tr) =>
        let input_stem := fileStemD input_path
        if options.mode = "range" then
          let start := options.range_start.getD 1
          let stop := options.range_end.getD total_pages
          if start > stop ∨ start < 1 ∨ stop > total_pages then
            (.error ("Invalid page range " ++ toString start ++ "-" ++
              toString stop ++ ". PDF has " ++ toString total_pages ++
              " pages."), tr)
          else
            let output_path := joinPath output_dir
              (input_stem ++ "_pages_" ++ toString start ++ "-" ++
                toString stop ++ ".pdf")
            match ghostscript.extract_pages env input_path output_path
                start stop with
            | (.error e, tr2) => (.error e, tr ++ tr2)
            | (.ok (), tr2) =>
              (.ok ⟨[output_path], total_pages⟩, tr ++ tr2)
        else if options.mode = "extract" then
          match options.pages with
          | none => (.error "Pages list required for extract mode", tr)
          | some pages =>
            if pages = [] then (.error "No pages specified", tr)
            else
              match pages.find? (fun p => p < 1 ∨ p > total_pages) with
              | some bad =>
                (.error ("Invalid page number " ++ toString bad ++
                  ". PDF has " ++ toString total_pages ++ " pages."), tr)
              | none =>
                let pages_str :=
                  if pages.length ≤ 3 then
                    String.intercalate "-" (pages.map toString)
                  else toString pages.length ++ "-pages"
                let output_path := joinPath output_dir
                  (input_stem ++ "_" ++ pages_str ++ ".pdf")
                match ghostscript.extract_page_list env input_path
                    output_path pages with
                | (.error e, tr2) => (.error e, tr ++ tr2)
                | (.ok (), tr2) =>
                  (.ok ⟨[output_path], total_pages⟩, tr ++ tr2)
        else if options.mode = "every-n" then
          let n := options.every_n.getD 1
          if n < 1 then (.error "every_n must be at least 1", tr)
          else
            match splitEveryLoop env input_path input_stem output_dir
                (n - 1) total_pages 1 1 with
            | (none, tr2, _) =>
              (.error "attempt to add with overflow", tr ++ tr2)
            | (some (.error e), tr2, _) => (.error e, tr ++ tr2)
            | (some (.ok ()), tr2, output_paths) =>
              (.ok ⟨output_paths, total_pages⟩, tr ++ tr2)
        else
          (.error ("Invalid split mode \x27" ++ options.mode ++
            "\x27. Valid options: range, extract, every-n"), tr)

/-- `split::get_pdf_page_count`. -/
def get_pdf_page_count (env : Env) (input_path : String) :
    Except String Nat × List Eff :=
  match validate_pdf env input_path with
  | .error e => (.error e, [])
  | .ok () => ghostscript.get_page_count env input_path

/-! ### `commands/protect.rs` -/

/-- `protect::protect_pdf`. -/
def protect_pdf (env : Env) (input_path : String)
    (output_path : Option String) (user_password : String)
    (owner_password : Option String) : Except String FileResult × List Eff :=
  match validate_pdf env input_path with
  | .error e => (.error e, [])
  | .ok () =>
    if user_password = "" then (.error "Password cannot be empty", [])
    else
      let output :=
        output_path.getD (generate_output_path input_path "-protected")
      let owner_pwd := owner_password.getD user_password
      match qpdf.encrypt env input_path output user_password owner_pwd with
      | (.error e, tr) => (.error e, tr)
      | (.ok (), tr) =>
        match env.metadataLen output with
        | .error e => (.error ("Failed to read output file: " ++ e), tr)
        | .ok size => (.ok ⟨output, size⟩, tr)

/-- `protect::unlock_pdf`. -/
def unlock_pdf (env : Env) (input_path : String)
    (output_path : Option String) (password : String) :
    Except String FileResult × List Eff :=
  match validate_pdf env input_path with
  | .error e => (.error e, [])
  | .ok () =>
    let output :=
      output_path.getD (generate_output_path input_path "-unlocked")
    match qpdf.decrypt env input_path output password with
    | (.error e, tr) => (.error e, tr)
    | (.ok (), tr) =>
      match env.metadataLen output with
      | .error e => (.error ("Failed to read output file: " ++ e), tr)
      | .ok size => (.ok ⟨output, size⟩, tr)

/-! ### Specification helpers for the every-n split -/

/-- The output file name of part number `part` of an every-n split. -/
def partName (outdir stem : String) (part : Nat) : String :=
  joinPath outdir (stem ++ "_part" ++ toString part ++ ".pdf")

/-- The pure chunk plan of the every-n loop: the `(part, start, stop)`
triples the `while` loop of `split_pdf` walks through, for chunk size
`npred + 1`. -/
def chunkPlan (npred total : Nat) (start part : Nat) :
    List (Nat × Nat × Nat) :=
  if start ≤ total then
    (part, start, min (start + npred) total) ::
      chunkPlan npred total (min (start + npred) total + 1) (part + 1)
  else []
termination_by total + 1 - start
decreasing_by
  have h1 : start ≤ min (start + npred) total :=
    le_min (Nat.le_add_right _ _) (by assumption)
  omega

/-- The pages covered by the page-extraction effects of a trace, in
order. -/
def coveredPages (tr : List Eff) : List Nat :=
  (tr.map (fun e =>
    match e with
    | .gsExtract _ _ s t => List.range' s (t + 1 - s)
    | _ => [])).flatten

/-! ### Concrete environments used by the witnesses -/

/-- A fully successful environment: both binaries found, every file
exists, every process exits 0, the page-count query prints `5`, the input
file has 100 bytes and every other file 60. -/
def okEnv : Env where
  gs := some "/usr/bin/gs"
  qpdf := some "/usr/bin/qpdf"
  pathExists := fun _ => true
  metadataLen := fun p => .ok (if p = "a.pdf" then 100 else 60)
  createDir := fun _ => .ok ()
  tempdir := .ok "/tmp/t"
  copyFile := fun _ _ => .ok ()
  run := fun _ => .ok (some 0)
  runOut := fun _ => .ok (some 0, "5", "")

/-- A concrete environment in which no file exists. -/
def noFileEnv : Env :=
  { okEnv with pathExists := fun _ => false }

/-- An environment whose primary page-count query exits with code 1 while
every other invocation succeeds (the alternative query prints `5`). -/
def fallbackEnv : Env :=
  { okEnv with
    runOut := fun e =>
      match e with
      | .gsPageCount _ => .ok (some 1, "", "")
      | _ => .ok (some 0, "5", "") }

/-- An environment in which every `status()` invocation exits with
code 7. -/
def exit7Env : Env := { okEnv with run := fun _ => .ok (some 7) }

/-- An environment in which every `status()` invocation exits with
code 9. -/
def exit9Env : Env := { okEnv with run := fun _ => .ok (some 9) }

/-- An environment whose page-count query reports a document of
`u32::MAX` pages (4294967295, admitted by `str::parse::<u32>`). -/
def hugeEnv : Env :=
  { okEnv with runOut := fun _ => .ok (some 0, "4294967295", "") }

/-! ### Claims -/

/-- C2: for every successful `compress_pdf` call, the returned
`savings_percent` equals `(original_size - compressed_size) / original_size * 100`
when `original_size > 0`, and `0` when `original_size` is `0`. -/
theorem C2_savings_percent (env : Env) (input : String)
    (output_path : Option String) (preset : String) (r : CompressionResult)
    (h : (compress_pdf env input output_path preset).1 = .ok r) :
    r.savings_percent =
      if 0 < r.original_size then
        (((r.original_size : ℚ) - (r.compressed_size : ℚ)) /
          (r.original_size : ℚ)) * 100
      else 0 := by
  unfold compress_pdf at h
  dsimp only at h
  split at h <;> try cases h
  split at h <;> try cases h
  split at h <;> try cases h
  split at h <;> try cases h
  split at h <;> try cases h
  rfl

/-- Witness for C2: a successful compression of a 100-byte file down to
60 bytes reports a savings of 40 percent. -/
theorem C2_savings_percent_witness :
    (compress_pdf okEnv "a.pdf" none "screen").1 =
      .ok ⟨"a-compressed.pdf", 100, 60, (((100 : ℚ) - 60) / 100) * 100⟩ ∧
    (((100 : ℚ) - 60) / 100) * 100 =
      if 0 < (100 : Nat) then (((100 : Nat) : ℚ) - ((60 : Nat) : ℚ)) /
        ((100 : Nat) : ℚ) * 100 else 0 :=
  ⟨by rfl,
    C2_savings_percent okEnv "a.pdf" none "screen"
      ⟨"a-compressed.pdf", 100, 60, (((100 : ℚ) - 60) / 100) * 100⟩ (by rfl)⟩

/-- C3: `compress_pdf` with a preset outside
`{"screen", "ebook", "printer", "prepress"}` returns the error naming the
invalid preset and the valid options, and spawns no external process. -/
theorem C3_invalid_preset (env : Env) (input : String)
    (output_path : Option String) (preset : String)
    (hv : validate_pdf env input = .ok ())
    (hp : preset ∉ ["screen", "ebook", "printer", "prepress"]) :
    compress_pdf env input output_path preset =
      (.error ("Invalid preset \x27" ++ preset ++
        "\x27. Valid options: [\"screen\", \"ebook\", \"printer\", \"prepress\"]"),
        []) := by
  unfold compress_pdf
  rw [hv]
  have hc : (["screen", "ebook", "printer", "prepress"].contains preset)
      = false := by
    simpa using hp
  rw [hc]
  rfl

/-- Witness for C3: the preset `"bogus"` is rejected with no process
spawned. -/
theorem C3_invalid_preset_witness :
    validate_pdf okEnv "a.pdf" = .ok () ∧
    compress_pdf okEnv "a.pdf" none "bogus" =
      (.error ("Invalid preset \x27bogus\x27. Valid options: [\"screen\", \"ebook\", \"printer\", \"prepress\"]"),
        []) :=
  ⟨by decide,
    C3_invalid_preset okEnv "a.pdf" none "bogus" (by decide) (by decide)⟩

/-- C4: `merge_pdfs` with fewer than two input paths returns an error and
invokes no external process. -/
theorem C4_merge_requires_two (env : Env) (input_paths : List String)
    (output_path : String) (h : input_paths.length < 2) :
    merge_pdfs env input_paths output_path =
      (.error "At least 2 PDF files are required for merging", []) := by
  unfold merge_pdfs
  rw [if_pos h]

/-- Witness for C4: a single input path is rejected with no process
spawned. -/
theorem C4_merge_requires_two_witness :
    [("a.pdf" : String)].length < 2 ∧
    merge_pdfs okEnv ["a.pdf"] "out.pdf" =
      (.error "At least 2 PDF files are required for merging", []) :=
  ⟨by decide, C4_merge_requires_two okEnv ["a.pdf"] "out.pdf" (by decide)⟩

/-- C5: when no output path is supplied, `compress_pdf`, `protect_pdf`
and `unlock_pdf` write to the input's parent directory joined with the
input's stem followed by `-compressed` / `-protected` / `-unlocked` and
the `.pdf` extension. -/
theorem C5_auto_output_paths (env : Env) (input preset user_password pw :
    String) (owner_password : Option String) (rc : CompressionResult)
    (rp ru : FileResult)
    (hc : (compress_pdf env input none preset).1 = .ok rc)
    (hp : (protect_pdf env input none user_password owner_password).1 =
      .ok rp)
    (hu : (unlock_pdf env input none pw).1 = .ok ru) :
    rc.output_path =
      joinPath (parentD input) (fileStemD input ++ "-compressed" ++ ".pdf") ∧
    rp.output_path =
      joinPath (parentD input) (fileStemD input ++ "-protected" ++ ".pdf") ∧
    ru.output_path =
      joinPath (parentD input) (fileStemD input ++ "-unlocked" ++ ".pdf") := by
  refine ⟨?_, ?_, ?_⟩
  · unfold compress_pdf at hc
    dsimp only at hc
    split at hc <;> try cases hc
    split at hc <;> try cases hc
    split at hc <;> try cases hc
    split at hc <;> try cases hc
    split at hc <;> try cases hc
    rfl
  · unfold protect_pdf at hp
    dsimp only at hp
    split at hp <;> try cases hp
    split at hp <;> try cases hp
    split at hp <;> try cases hp
    split at hp <;> try cases hp
    rfl
  · unfold unlock_pdf at hu
    dsimp only at hu
    split at hu <;> try cases hu
    split at hu <;> try cases hu
    split at hu <;> try cases hu
    rfl

/-- Witness for C5: for input `a.pdf` the three commands write to
`a-compressed.pdf`, `a-protected.pdf` and `a-unlocked.pdf`. -/
theorem C5_auto_output_paths_witness :
    (compress_pdf okEnv "a.pdf" none "screen").1 =
      .ok ⟨"a-compressed.pdf", 100, 60, (((100 : ℚ) - 60) / 100) * 100⟩ ∧
    (protect_pdf okEnv "a.pdf" none "x" none).1 = .ok ⟨"a-protected.pdf", 60⟩ ∧
    (unlock_pdf okEnv "a.pdf" none "x").1 = .ok ⟨"a-unlocked.pdf", 60⟩ ∧
    ("a-compressed.pdf" =
        joinPath (parentD "a.pdf") (fileStemD "a.pdf" ++ "-compressed" ++ ".pdf") ∧
      "a-protected.pdf" =
        joinPath (parentD "a.pdf") (fileStemD "a.pdf" ++ "-protected" ++ ".pdf") ∧
      "a-unlocked.pdf" =
        joinPath (parentD "a.pdf") (fileStemD "a.pdf" ++ "-unlocked" ++ ".pdf")) :=
  ⟨by rfl, by decide, by decide,
    C5_auto_output_paths okEnv "a.pdf" "screen" "x" "x" none
      ⟨"a-compressed.pdf", 100, 60, (((100 : ℚ) - 60) / 100) * 100⟩
      ⟨"a-protected.pdf", 60⟩ ⟨"a-unlocked.pdf", 60⟩
      (by rfl) (by decide) (by decide)⟩

/-- If some path of the list fails validation, the sequential validation
loop of `merge_pdfs` returns an error. -/
theorem validateAll_error (env : Env) (paths : List String) (p : String)
    (e : String) (hp : p ∈ paths) (hv : validate_pdf env p = .error e) :
    ∃ e2, validateAll env paths = .error e2 := by
  induction paths with
  | nil => cases hp
  | cons q qs ih =>
    unfold validateAll
    cases hq : validate_pdf env q with
    | error e2 => exact ⟨e2, rfl⟩
    | ok u =>
      rcases List.mem_cons.mp hp with h | h
      · rw [← h] at hq
        rw [hv] at hq
        cases hq
      · exact ih h

/-- C9: every public PDF operation validates its input paths first:
when `validate_pdf` rejects the input (missing file, or extension not
`pdf` up to ASCII case, with the two fixed messages), the operation
returns that error and spawns no external process. -/
theorem C9_validate_first (env : Env) (input output_dir output_path preset
    user_password pw : String) (op : Option String)
    (owner_password : Option String) (o : SplitOptions)
    (paths : List String) (e : String)
    (hv : validate_pdf env input = .error e) :
    compress_pdf env input op preset = (.error e, []) ∧
    split_pdf env input output_dir o = (.error e, []) ∧
    get_pdf_page_count env input = (.error e, []) ∧
    protect_pdf env input op user_password owner_password = (.error e, []) ∧
    unlock_pdf env input op pw = (.error e, []) ∧
    (input ∈ paths →
      ∃ e2, merge_pdfs env paths output_path = (.error e2, [])) ∧
    (env.pathExists input = false →
      validate_pdf env input = .error ("File not found: " ++ input)) ∧
    (env.pathExists input = true →
      (extensionStr input).elim True
        (fun x => eqIgnoreAsciiCase x "pdf" = false) →
      validate_pdf env input = .error "File is not a PDF") := by
  refine ⟨?_, ?_, ?_, ?_, ?_, ?_, ?_, ?_⟩
  · unfold compress_pdf
    rw [hv]
  · unfold split_pdf
    rw [hv]
  · unfold get_pdf_page_count
    rw [hv]
  · unfold protect_pdf
    rw [hv]
  · unfold unlock_pdf
    rw [hv]
  · intro hmem
    unfold merge_pdfs
    by_cases hlen : paths.length < 2
    · rw [if_pos hlen]
      exact ⟨_, rfl⟩
    · rw [if_neg hlen]
      obtain ⟨e2, hva⟩ := validateAll_error env paths input e hmem hv
      rw [hva]
      exact ⟨e2, rfl⟩
  · intro hne
    unfold validate_pdf
    rw [hne]
    rfl
  · intro hex hext
    unfold validate_pdf
    rw [hex]
    cases hx : extensionStr input with
    | none => rfl
    | some x =>
      rw [hx] at hext
      simp only [Option.elim] at hext
      simp [hext]

/-- Witness for C9: with a missing input file every operation fails with
`File not found` and spawns nothing. -/
theorem C9_validate_first_witness :
    validate_pdf noFileEnv "a.pdf" = .error "File not found: a.pdf" ∧
    (compress_pdf noFileEnv "a.pdf" none "screen" =
        (.error "File not found: a.pdf", []) ∧
      split_pdf noFileEnv "a.pdf" "/out" ⟨"range", none, none, none, none⟩ =
        (.error "File not found: a.pdf", []) ∧
      get_pdf_page_count noFileEnv "a.pdf" =
        (.error "File not found: a.pdf", []) ∧
      protect_pdf noFileEnv "a.pdf" none "x" none =
        (.error "File not found: a.pdf", []) ∧
      unlock_pdf noFileEnv "a.pdf" none "x" =
        (.error "File not found: a.pdf", []) ∧
      ("a.pdf" ∈ ["a.pdf", "b.pdf"] →
        ∃ e2, merge_pdfs noFileEnv ["a.pdf", "b.pdf"] "out.pdf" =
          (.error e2, [])) ∧
      (noFileEnv.pathExists "a.pdf" = false →
        validate_pdf noFileEnv "a.pdf" =
          .error ("File not found: " ++ "a.pdf")) ∧
      (noFileEnv.pathExists "a.pdf" = true →
        (extensionStr "a.pdf").elim True
          (fun x => eqIgnoreAsciiCase x "pdf" = false) →
        validate_pdf noFileEnv "a.pdf" = .error "File is not a PDF")) :=
  ⟨by decide,
    C9_validate_first noFileEnv "a.pdf" "/out" "out.pdf" "screen" "x" "x"
      none none ⟨"range", none, none, none, none⟩ ["a.pdf", "b.pdf"]
      "File not found: a.pdf" (by decide)⟩

/-- Every effect in the trace of `get_page_count` is one of the two
page-count queries; in particular no page-extraction process appears
there. -/
theorem get_page_count_trace (env : Env) (input : String) :
    ∀ eff ∈ (ghostscript.get_page_count env input).2,
      eff = Eff.gsPageCount input ∨ eff = Eff.gsPageCountAlt input := by
  intro eff h
  unfold ghostscript.get_page_count at h
  dsimp only at h
  split at h
  · simp at h
  · split at h
    · simp at h
      exact Or.inl h
    · split at h
      · split at h <;> (simp at h; exact Or.inl h)
      · rcases List.mem_cons.mp h with h1 | h2
        · exact Or.inl h1
        · right
          unfold ghostscript.get_page_count_alternative at h2
          dsimp only at h2
          split at h2
          · simp at h2
          · split at h2
            · simp at h2
              exact h2
            · split at h2
              · split at h2 <;> (simp at h2; exact h2)
              · simp at h2
                exact h2

/-- C1: in `"range"` mode, an effective range with `start > end`,
`start < 1` or `end` beyond the page count makes `split_pdf` return the
range error, and no page-extraction process is invoked. -/
theorem C1_range_validation (env : Env) (input output_dir : String)
    (o : SplitOptions) (total : Nat) (tr : List Eff)
    (hmode : o.mode = "range")
    (hv : validate_pdf env input = .ok ())
    (hdir : (if env.pathExists output_dir then Except.ok ()
      else env.createDir output_dir) = .ok ())
    (hpc : ghostscript.get_page_count env input = (.ok total, tr))
    (hbad : o.range_start.getD 1 > o.range_end.getD total ∨
      o.range_start.getD 1 < 1 ∨ o.range_end.getD total > total) :
    split_pdf env input output_dir o =
      (.error ("Invalid page range " ++ toString (o.range_start.getD 1) ++
        "-" ++ toString (o.range_end.getD total) ++ ". PDF has " ++
        toString total ++ " pages."), tr) ∧
    ∀ a b : String, ∀ s t : Nat, Eff.gsExtract a b s t ∉ tr := by
  constructor
  · unfold split_pdf
    rw [hv, hdir, hpc, hmode]
    dsimp only
    rw [if_pos rfl, if_pos hbad]
  · intro a b s t hmem
    have h := get_page_count_trace env input (Eff.gsExtract a b s t)
    rw [hpc] at h
    rcases h hmem with h1 | h1 <;> cases h1

/-- Witness for C1: range 3-2 on a 5-page document is rejected with only
the page-count query in the trace. -/
theorem C1_range_validation_witness :
    ghostscript.get_page_count okEnv "a.pdf" =
      (.ok 5, [Eff.gsPageCount "a.pdf"]) ∧
    (split_pdf okEnv "a.pdf" "/out" ⟨"range", some 3, some 2, none, none⟩ =
      (.error "Invalid page range 3-2. PDF has 5 pages.",
        [Eff.gsPageCount "a.pdf"]) ∧
    ∀ a b : String, ∀ s t : Nat,
      Eff.gsExtract a b s t ∉ [Eff.gsPageCount "a.pdf"]) :=
  ⟨by decide,
    C1_range_validation okEnv "a.pdf" "/out"
      ⟨"range", some 3, some 2, none, none⟩ 5 [Eff.gsPageCount "a.pdf"]
      rfl (by decide) (by decide) (by decide) (Or.inl (by decide))⟩

/-- C6 counterexample: with the primary page-count process exiting
unsuccessfully (code 1), `get_page_count` does invoke the alternative
query a second time and succeeds with its result, instead of failing. -/
theorem C6_counterexample :
    fallbackEnv.runOut (Eff.gsPageCount "a.pdf") = .ok (some 1, "", "") ∧
    ghostscript.get_page_count fallbackEnv "a.pdf" =
      (.ok 5, [Eff.gsPageCount "a.pdf", Eff.gsPageCountAlt "a.pdf"]) := by
  constructor
  · decide
  · decide

/-- C6 (amended): when the primary page-count query's process exits
unsuccessfully, `get_page_count` transparently falls back to exactly one
invocation of the alternative page-count method and returns its result;
the alternative itself performs a single invocation. -/
theorem C6_page_count_fallback (env : Env) (input g : String)
    (code : Option Int) (sout serr : String)
    (hgs : env.gs = some g)
    (hrun : env.runOut (Eff.gsPageCount input) = .ok (code, sout, serr))
    (hfail : code ≠ some 0) :
    ghostscript.get_page_count env input =
      ((ghostscript.get_page_count_alternative env input).1,
        Eff.gsPageCount input ::
          (ghostscript.get_page_count_alternative env input).2) ∧
    (ghostscript.get_page_count_alternative env input).2 =
      [Eff.gsPageCountAlt input] := by
  constructor
  · unfold ghostscript.get_page_count
    rw [hgs]
    dsimp only
    rw [hrun]
    dsimp only
    rw [if_neg hfail]
  · unfold ghostscript.get_page_count_alternative
    rw [hgs]
    dsimp only
    split
    · rfl
    · split
      · split <;> rfl
      · rfl

/-- Witness for the amended C6: concrete fallback run under
`fallbackEnv`. -/
theorem C6_page_count_fallback_witness :
    fallbackEnv.gs = some "/usr/bin/gs" ∧
    fallbackEnv.runOut (Eff.gsPageCount "a.pdf") = .ok (some 1, "", "") ∧
    (some 1 : Option Int) ≠ some 0 ∧
    (ghostscript.get_page_count fallbackEnv "a.pdf" =
      ((ghostscript.get_page_count_alternative fallbackEnv "a.pdf").1,
        Eff.gsPageCount "a.pdf" ::
          (ghostscript.get_page_count_alternative fallbackEnv "a.pdf").2) ∧
    (ghostscript.get_page_count_alternative fallbackEnv "a.pdf").2 =
      [Eff.gsPageCountAlt "a.pdf"]) :=
  ⟨by decide, by decide, by decide,
    C6_page_count_fallback fallbackEnv "a.pdf" "/usr/bin/gs" (some 1) "" ""
      (by decide) (by decide) (by decide)⟩

/-- C7 counterexample: a failing page extraction (a Ghostscript
invocation) yields the same generic message for exit code 7 and for exit
code 9 — the raw exit code is not surfaced — while a failing qpdf
encryption does surface its raw exit code. -/
theorem C7_counterexample :
    ghostscript.extract_pages exit7Env "in.pdf" "out.pdf" 2 5 =
      (.error "Failed to extract pages 2-5",
        [Eff.gsExtract "in.pdf" "out.pdf" 2 5]) ∧
    ghostscript.extract_pages exit9Env "in.pdf" "out.pdf" 2 5 =
      (.error "Failed to extract pages 2-5",
        [Eff.gsExtract "in.pdf" "out.pdf" 2 5]) ∧
    qpdf.encrypt exit7Env "in.pdf" "out.pdf" "u" "o" =
      (.error "qpdf encryption failed with exit code: Some(7)",
        [Eff.qpdfEncrypt "in.pdf" "out.pdf" "u" "o"]) := by
  refine ⟨by decide, by decide, by decide⟩

/-- C7 (amended): on non-zero exit status, compression and merge surface
the raw exit code, page extraction returns a generic message naming only
the page range, qpdf encryption surfaces the raw exit code, and qpdf
decryption returns a generic message without the exit code. -/
theorem C7_exit_code_messages (env : Env) (input output preset
    user_password owner_password password g q : String)
    (inputs : List String) (s t : Nat) (code : Option Int)
    (hgs : env.gs = some g) (hq : env.qpdf = some q)
    (hfail : code ≠ some 0)
    (h1 : env.run (Eff.gsCompress input output preset) = .ok code)
    (h2 : env.run (Eff.gsMerge inputs output) = .ok code)
    (h3 : env.run (Eff.gsExtract input output s t) = .ok code)
    (h4 : env.run (Eff.qpdfEncrypt input output user_password
      owner_password) = .ok code)
    (h5 : env.run (Eff.qpdfDecrypt input output password) = .ok code) :
    ghostscript.compress env input output preset =
      (.error ("Ghostscript compression failed with exit code: " ++
        ghostscript.fmtOptCode code), [Eff.gsCompress input output preset]) ∧
    ghostscript.merge env inputs output =
      (.error ("Ghostscript merge failed with exit code: " ++
        ghostscript.fmtOptCode code), [Eff.gsMerge inputs output]) ∧
    ghostscript.extract_pages env input output s t =
      (.error ("Failed to extract pages " ++ toString s ++ "-" ++
        toString t), [Eff.gsExtract input output s t]) ∧
    qpdf.encrypt env input output user_password owner_password =
      (.error ("qpdf encryption failed with exit code: " ++
        ghostscript.fmtOptCode code),
        [Eff.qpdfEncrypt input output user_password owner_password]) ∧
    qpdf.decrypt env input output password =
      (.error "Failed to decrypt PDF. Check if the password is correct.",
        [Eff.qpdfDecrypt input output password]) := by
  refine ⟨?_, ?_, ?_, ?_, ?_⟩
  · unfold ghostscript.compress
    rw [hgs]
    dsimp only
    rw [h1]
    dsimp only
    rw [if_neg hfail]
  · unfold ghostscript.merge
    rw [hgs]
    dsimp only
    rw [h2]
    dsimp only
    rw [if_neg hfail]
  · unfold ghostscript.extract_pages
    rw [hgs]
    dsimp only
    rw [h3]
    dsimp only
    rw [if_neg hfail]
  · unfold qpdf.encrypt
    rw [hq]
    dsimp only
    rw [h4]
    dsimp only
    rw [if_neg hfail]
  · unfold qpdf.decrypt
    rw [hq]
    dsimp only
    rw [h5]
    dsimp only
    rw [if_neg hfail]

/-- Witness for the amended C7: all five wrappers under exit code 7. -/
theorem C7_exit_code_messages_witness :
    exit7Env.gs = some "/usr/bin/gs" ∧
    exit7Env.qpdf = some "/usr/bin/qpdf" ∧
    (some 7 : Option Int) ≠ some 0 ∧
    (ghostscript.compress exit7Env "in.pdf" "out.pdf" "screen" =
      (.error ("Ghostscript compression failed with exit code: " ++
        ghostscript.fmtOptCode (some 7)),
        [Eff.gsCompress "in.pdf" "out.pdf" "screen"]) ∧
    ghostscript.merge exit7Env ["x.pdf"] "out.pdf" =
      (.error ("Ghostscript merge failed with exit code: " ++
        ghostscript.fmtOptCode (some 7)), [Eff.gsMerge ["x.pdf"] "out.pdf"]) ∧
    ghostscript.extract_pages exit7Env "in.pdf" "out.pdf" 2 5 =
      (.error ("Failed to extract pages " ++ toString 2 ++ "-" ++
        toString 5), [Eff.gsExtract "in.pdf" "out.pdf" 2 5]) ∧
    qpdf.encrypt exit7Env "in.pdf" "out.pdf" "u" "o" =
      (.error ("qpdf encryption failed with exit code: " ++
        ghostscript.fmtOptCode (some 7)),
        [Eff.qpdfEncrypt "in.pdf" "out.pdf" "u" "o"]) ∧
    qpdf.decrypt exit7Env "in.pdf" "out.pdf" "p" =
      (.error "Failed to decrypt PDF. Check if the password is correct.",
        [Eff.qpdfDecrypt "in.pdf" "out.pdf" "p"])) :=
  ⟨by decide, by decide, by decide,
    C7_exit_code_messages exit7Env "in.pdf" "out.pdf" "screen" "u" "o" "p"
      "/usr/bin/gs" "/usr/bin/qpdf" ["x.pdf"] 2 5 (some 7)
      (by decide) (by decide) (by decide) (by decide) (by decide)
      (by decide) (by decide) (by decide)⟩

/-- When Ghostscript is found and every page extraction succeeds, the
loop of `extract_page_list` extracts each listed page, in list order,
into its own temp file `page_<p>.pdf`. -/
theorem extractLoop_ok (env : Env) (input td g : String)
    (hgs : env.gs = some g)
    (hext : ∀ a b s t, env.run (Eff.gsExtract a b s t) = .ok (some 0)) :
    ∀ pages : List Nat, ghostscript.extractLoop env input td pages =
      (.ok (),
        pages.map (fun p => Eff.gsExtract input
          (joinPath td ("page_" ++ toString p ++ ".pdf")) p p),
        pages.map (fun p => joinPath td ("page_" ++ toString p ++ ".pdf"))) := by
  intro pages
  induction pages with
  | nil => rfl
  | cons p ps ih =>
    unfold ghostscript.extractLoop ghostscript.extract_pages
    rw [hgs]
    dsimp only
    rw [hext]
    dsimp only
    rw [if_pos rfl]
    dsimp only
    rw [ih]
    simp

/-- C8: for a non-empty page list (all steps succeeding),
`extract_page_list` extracts each requested page one at a time into its
own temp file, in list order, and then merges those temp files into the
output — except that a single-page list is copied to the output instead
of merged. -/
theorem C8_extract_page_list (env : Env) (input output td g : String)
    (pages : List Nat) (hne : pages ≠ [])
    (hgs : env.gs = some g) (htd : env.tempdir = .ok td)
    (hext : ∀ a b s t, env.run (Eff.gsExtract a b s t) = .ok (some 0))
    (hcopy : ∀ s d, env.copyFile s d = .ok ())
    (hmerge : ∀ ins outp, env.run (Eff.gsMerge ins outp) = .ok (some 0)) :
    ghostscript.extract_page_list env input output pages =
      (.ok (),
        pages.map (fun p => Eff.gsExtract input
          (joinPath td ("page_" ++ toString p ++ ".pdf")) p p) ++
        (if pages.length = 1 then
          [Eff.fsCopy (joinPath td ("page_" ++ toString pages.headI ++
            ".pdf")) output]
        else
          [Eff.gsMerge (pages.map (fun p =>
            joinPath td ("page_" ++ toString p ++ ".pdf"))) output])) := by
  match pages, hne with
  | p :: ps, _ =>
    unfold ghostscript.extract_page_list
    rw [hgs]
    dsimp only
    rw [htd]
    dsimp only
    rw [extractLoop_ok env input td g hgs hext (p :: ps)]
    dsimp only
    by_cases hps : ps = []
    · subst hps
      simp [hcopy]
    · have hlen : ¬((p :: ps).map (fun p =>
          joinPath td ("page_" ++ toString p ++ ".pdf"))).length = 1 := by
        simp [hps]
      have hlen2 : ¬(p :: ps).length = 1 := by
        simp [hps]
      rw [if_neg hlen, if_neg hlen2]
      unfold ghostscript.merge
      rw [hgs]
      dsimp only
      rw [hmerge]
      dsimp only
      rw [if_pos rfl]

/-- Witness for C8: extracting pages 2 and 4 of `a.pdf` produces two
single-page extractions followed by a merge of the two temp files. -/
theorem C8_extract_page_list_witness :
    ([2, 4] : List Nat) ≠ [] ∧
    ghostscript.extract_page_list okEnv "a.pdf" "o.pdf" [2, 4] =
      (.ok (),
        ([2, 4] : List Nat).map (fun p => Eff.gsExtract "a.pdf"
          (joinPath "/tmp/t" ("page_" ++ toString p ++ ".pdf")) p p) ++
        (if ([2, 4] : List Nat).length = 1 then
          [Eff.fsCopy (joinPath "/tmp/t" ("page_" ++
            toString ([2, 4] : List Nat).headI ++ ".pdf")) "o.pdf"]
        else
          [Eff.gsMerge (([2, 4] : List Nat).map (fun p =>
            joinPath "/tmp/t" ("page_" ++ toString p ++ ".pdf")))
            "o.pdf"])) :=
  ⟨by decide,
    C8_extract_page_list okEnv "a.pdf" "o.pdf" "/tmp/t" "/usr/bin/gs"
      [2, 4] (by decide) rfl rfl (fun _ _ _ _ => rfl) (fun _ _ => rfl)
      (fun _ _ => rfl)⟩

/-- One step of the chunk plan adds one chunk to its length. -/
theorem chunkPlan_length_cons (npred total start part : Nat)
    (hst : start ≤ total) :
    (chunkPlan npred total start part).length =
      (chunkPlan npred total (min (start + npred) total + 1)
        (part + 1)).length + 1 := by
  rw [chunkPlan.eq_def]
  rw [if_pos hst]
  simp

/-- When Ghostscript is found, every extraction succeeds and none of the
machine additions overflows (`total + n < 2^32` for the `u32` page
arithmetic, and the `i32` part counter stays below `2^31`), the every-n
loop follows its pure chunk plan: it performs one extraction per planned
chunk and collects the part file names in order. -/
theorem splitEveryLoop_eq_plan (env : Env) (input stem outdir g : String)
    (npred total : Nat)
    (hgs : env.gs = some g)
    (hext : ∀ a b s t, env.run (Eff.gsExtract a b s t) = .ok (some 0))
    (h32 : total + npred + 1 < 2 ^ 32)
    (start part : Nat)
    (hp : part + (chunkPlan npred total start part).length < 2 ^ 31) :
    splitEveryLoop env input stem outdir npred total start part =
      (some (.ok ()),
        (chunkPlan npred total start part).map
          (fun c => Eff.gsExtract input (partName outdir stem c.1)
            c.2.1 c.2.2),
        (chunkPlan npred total start part).map
          (fun c => partName outdir stem c.1)) := by
  have hlen := chunkPlan_length_cons npred total start part
  unfold splitEveryLoop chunkPlan
  by_cases hst : start ≤ total
  · have hlen2 := hlen hst
    rw [if_pos hst, if_pos hst]
    rw [if_neg (by omega : ¬2 ^ 32 ≤ start + (npred + 1))]
    unfold ghostscript.extract_pages
    rw [hgs]
    dsimp only
    rw [hext]
    dsimp only
    rw [if_pos rfl]
    dsimp only
    have hmle : min (start + npred) total ≤ total := min_le_right _ _
    rw [if_neg (by omega : ¬2 ^ 32 ≤ min (start + npred) total + 1)]
    rw [if_neg (by omega : ¬2 ^ 31 ≤ part + 1)]
    rw [splitEveryLoop_eq_plan env input stem outdir g npred total hgs hext
      h32 (min (start + npred) total + 1) (part + 1) (by omega)]
    simp [partName]
  · rw [if_neg hst, if_neg hst]
    rfl
termination_by total + 1 - start
decreasing_by
  have h1 : start ≤ min (start + npred) total :=
    le_min (Nat.le_add_right _ _) hst
  omega

/-- Lower bound on the ceiling division `(total + n - 1) / n`: while the
loop has pages left at the start of chunk `i0`, at least `i0 + 1` chunks
exist. -/
theorem ceil_lower (n total i0 : Nat) (hn : 1 ≤ n)
    (h : n * i0 + 1 ≤ total) : i0 + 1 ≤ (total + n - 1) / n := by
  rw [Nat.le_div_iff_mul_le (by omega : 0 < n)]
  have h1 : (i0 + 1) * n = i0 * n + n := Nat.succ_mul i0 n
  have h2 : i0 * n = n * i0 := Nat.mul_comm i0 n
  omega

/-- Upper bound on the ceiling division `(total + n - 1) / n`: once
`total ≤ n * i0` no chunk beyond the first `i0` exists. -/
theorem ceil_upper (n total i0 : Nat) (hn : 1 ≤ n)
    (h : total ≤ n * i0) : (total + n - 1) / n ≤ i0 := by
  have hlt : (total + n - 1) / n < i0 + 1 := by
    rw [Nat.div_lt_iff_lt_mul (by omega : 0 < n)]
    have h1 : (i0 + 1) * n = i0 * n + n := Nat.succ_mul i0 n
    have h2 : i0 * n = n * i0 := Nat.mul_comm i0 n
    omega
  omega

/-- The chunk plan started at page `n * i0 + 1` with part number `i0 + 1`
consists of the remaining chunks `[n*i + 1, min (n*(i+1)) total]` for
`i = i0, ..., ceil(total/n) - 1`, with parts numbered accordingly. -/
theorem chunkPlan_formula (n total : Nat) (hn : 1 ≤ n) (i0 : Nat) :
    chunkPlan (n - 1) total (n * i0 + 1) (i0 + 1) =
      (List.range ((total + n - 1) / n - i0)).map
        (fun j => (i0 + j + 1, n * (i0 + j) + 1,
          min (n * (i0 + j + 1)) total)) := by
  unfold chunkPlan
  by_cases hst : n * i0 + 1 ≤ total
  · rw [if_pos hst]
    have hK1 : i0 + 1 ≤ (total + n - 1) / n := ceil_lower n total i0 hn hst
    have hsucc : n * (i0 + 1) = n * i0 + n := Nat.mul_succ n i0
    have hmin : n * i0 + 1 + (n - 1) = n * (i0 + 1) := by omega
    rw [hmin]
    have hKs : (total + n - 1) / n - i0 =
        ((total + n - 1) / n - (i0 + 1)) + 1 := by omega
    rw [hKs, List.range_succ_eq_map, List.map_cons, List.map_map]
    congr 1
    by_cases hnext : n * (i0 + 1) + 1 ≤ total
    · have hmin2 : min (n * (i0 + 1)) total = n * (i0 + 1) := by omega
      rw [hmin2]
      rw [chunkPlan_formula n total hn (i0 + 1)]
      refine List.map_congr_left fun j hj => ?_
      have e1 : i0 + 1 + j = i0 + (j + 1) := by omega
      simp only [Function.comp_apply, Nat.succ_eq_add_one]
      rw [e1]
    · have hmin2 : min (n * (i0 + 1)) total = total := by omega
      rw [hmin2]
      have hK : (total + n - 1) / n = i0 + 1 :=
        le_antisymm (ceil_upper n total (i0 + 1) hn (by omega)) hK1
      rw [hK]
      unfold chunkPlan
      rw [if_neg (by omega : ¬total + 1 ≤ total)]
      simp
  · rw [if_neg hst]
    have hK : (total + n - 1) / n ≤ i0 := ceil_upper n total i0 hn (by omega)
    rw [Nat.sub_eq_zero_of_le hK]
    simp
termination_by total - n * i0
decreasing_by
  omega

/-- The chunk plan of a full every-n split: chunks `[n*j + 1,
min (n*(j+1)) total]` numbered `_part(j+1)` for `j < ceil(total/n)`. -/
theorem chunkPlan_formula0 (n total : Nat) (hn : 1 ≤ n) :
    chunkPlan (n - 1) total 1 1 =
      (List.range ((total + n - 1) / n)).map
        (fun j => (j + 1, n * j + 1, min (n * (j + 1)) total)) := by
  have h := chunkPlan_formula n total hn 0
  simpa using h

/-- Unfolding of `coveredPages` on a cons cell. -/
theorem coveredPages_cons (e : Eff) (tr : List Eff) :
    coveredPages (e :: tr) =
      (match e with
        | .gsExtract _ _ s t => List.range' s (t + 1 - s)
        | _ => []) ++ coveredPages tr := by
  simp [coveredPages]

/-- Gluing adjacent `range'` blocks. -/
theorem range'_glue (s a b : Nat) :
    List.range' s a ++ List.range' (s + a) b = List.range' s (a + b) := by
  have h := List.range'_append s a b 1
  simp only [Nat.one_mul, Nat.add_comm b a] at h
  exact h

/-- The chunks of `chunkPlan` cover exactly the pages from `start` to
`total`, in order, each once. -/
theorem chunkPlan_cover (input outdir stem : String) (npred total : Nat)
    (start part : Nat) :
    coveredPages ((chunkPlan npred total start part).map
      (fun c => Eff.gsExtract input (partName outdir stem c.1)
        c.2.1 c.2.2)) = List.range' start (total + 1 - start) := by
  unfold chunkPlan
  by_cases hst : start ≤ total
  · rw [if_pos hst, List.map_cons, coveredPages_cons]
    rw [chunkPlan_cover input outdir stem npred total
      (min (start + npred) total + 1) (part + 1)]
    dsimp only
    have hm : start ≤ min (start + npred) total :=
      le_min (Nat.le_add_right _ _) hst
    have hmt : min (start + npred) total ≤ total := min_le_right _ _
    generalize hmdef : min (start + npred) total = m at hm hmt ⊢
    have hg := range'_glue start (m + 1 - start) (total - m)
    have e3 : total + 1 - start = (m + 1 - start) + (total - m) := by omega
    have e2 : total + 1 - (m + 1) = total - m := by omega
    rw [e3, e2]
    have e1 : m + 1 = start + (m + 1 - start) := by omega
    nth_rewrite 2 [e1]
    exact hg
  · rw [if_neg hst]
    have h0 : total + 1 - start = 0 := by omega
    rw [h0]
    simp [coveredPages]
termination_by total + 1 - start
decreasing_by
  have h1 : start ≤ min (start + npred) total :=
    le_min (Nat.le_add_right _ _) hst
  omega

/-- C10 counterexample: on a document whose page count is `u32::MAX`
(4294967295, admitted by the page-count parser) with
`every_n = u32::MAX`, the very first loop iteration computes
`start + n = 2^32`, which overflows `u32`: the command aborts with the
overflow panic (release builds wrap and never terminate) instead of
returning the `ceil(total/n) = 1` output path `_part1` for the chunk
`[1, total]` that the claim predicts. -/
theorem C10_counterexample :
    split_pdf hugeEnv "a.pdf" "/out"
        ⟨"every-n", none, none, none, some 4294967295⟩ =
      (.error "attempt to add with overflow", [Eff.gsPageCount "a.pdf"]) ∧
    split_pdf hugeEnv "a.pdf" "/out"
        ⟨"every-n", none, none, none, some 4294967295⟩ ≠
      (.ok ⟨[partName "/out" (fileStemD "a.pdf") 1], 4294967295⟩,
        [Eff.gsPageCount "a.pdf",
          Eff.gsExtract "a.pdf" (partName "/out" (fileStemD "a.pdf") 1)
            1 4294967295]) := by
  have hloop : splitEveryLoop hugeEnv "a.pdf" (fileStemD "a.pdf") "/out"
      (4294967295 - 1) 4294967295 1 1 = (none, [], []) := by
    rw [splitEveryLoop.eq_def]
    rw [if_pos (by norm_num : (1 : Nat) ≤ 4294967295)]
    rw [if_pos (by norm_num : 2 ^ 32 ≤ 1 + (4294967295 - 1 + 1))]
  have hmain : split_pdf hugeEnv "a.pdf" "/out"
      ⟨"every-n", none, none, none, some 4294967295⟩ =
      (.error "attempt to add with overflow", [Eff.gsPageCount "a.pdf"]) := by
    unfold split_pdf
    rw [show validate_pdf hugeEnv "a.pdf" = .ok () from by decide]
    rw [show (if hugeEnv.pathExists "/out" then Except.ok ()
      else hugeEnv.createDir "/out") = Except.ok () from by decide]
    rw [show ghostscript.get_page_count hugeEnv "a.pdf" =
      (.ok 4294967295, [Eff.gsPageCount "a.pdf"]) from by decide]
    dsimp only
    rw [if_neg (by decide : ¬("every-n" = "range")),
      if_neg (by decide : ¬("every-n" = "extract")), if_pos rfl]
    simp only [Option.getD]
    rw [if_neg (by decide : ¬(4294967295 : Nat) < 1)]
    rw [hloop]
    simp
  refine ⟨hmain, ?_⟩
  rw [hmain]
  intro h
  cases h

/-- C10 (amended): in `"every-n"` mode with `n ≥ 1` and a `total`-page
document (all extractions succeeding), provided the machine arithmetic
does not overflow — `total + n < 2^32` for the `u32` page arithmetic and
`ceil(total/n) + 1 < 2^31` for the `i32` part counter — `split_pdf`
extracts the consecutive chunks `[1, n], [n+1, 2n], ...` with the last
chunk ending at `total`, covering every page from 1 to `total` exactly
once, and returns `ceil(total / n)` output paths named `_part1` through
`_partK` in order. -/
theorem C10_every_n_split (env : Env) (input output_dir g : String)
    (o : SplitOptions) (n total : Nat) (tr : List Eff)
    (hmode : o.mode = "every-n") (hn : o.every_n = some n)
    (hn1 : 1 ≤ n) (_ht : 1 ≤ total)
    (h32 : total + n < 2 ^ 32)
    (h31 : (total + n - 1) / n + 1 < 2 ^ 31)
    (hv : validate_pdf env input = .ok ())
    (hdir : (if env.pathExists output_dir then Except.ok ()
      else env.createDir output_dir) = .ok ())
    (hpc : ghostscript.get_page_count env input = (.ok total, tr))
    (hgs : env.gs = some g)
    (hext : ∀ a b s t, env.run (Eff.gsExtract a b s t) = .ok (some 0)) :
    split_pdf env input output_dir o =
      (.ok ⟨(List.range ((total + n - 1) / n)).map
          (fun j => partName output_dir (fileStemD input) (j + 1)), total⟩,
        tr ++ (List.range ((total + n - 1) / n)).map
          (fun j => Eff.gsExtract input
            (partName output_dir (fileStemD input) (j + 1))
            (n * j + 1) (min (n * (j + 1)) total))) ∧
    coveredPages ((List.range ((total + n - 1) / n)).map
        (fun j => Eff.gsExtract input
          (partName output_dir (fileStemD input) (j + 1))
          (n * j + 1) (min (n * (j + 1)) total))) =
      List.range' 1 total := by
  constructor
  · unfold split_pdf
    rw [hv, hdir, hpc, hmode, hn]
    dsimp only
    rw [if_neg (by decide : ¬("every-n" = "range")),
      if_neg (by decide : ¬("every-n" = "extract")), if_pos rfl]
    simp only [Option.getD]
    rw [if_neg (by omega : ¬n < 1)]
    have hlen0 : (chunkPlan (n - 1) total 1 1).length = (total + n - 1) / n := by
      rw [chunkPlan_formula0 n total hn1]
      simp
    rw [splitEveryLoop_eq_plan env input (fileStemD input) output_dir g
      (n - 1) total hgs hext (by omega) 1 1 (by omega)]
    dsimp only
    rw [chunkPlan_formula0 n total hn1]
    simp only [List.map_map]
    rfl
  · have hcov := chunkPlan_cover input output_dir (fileStemD input)
      (n - 1) total 1 1
    rw [chunkPlan_formula0 n total hn1] at hcov
    simp only [List.map_map] at hcov
    rw [show total + 1 - 1 = total from by omega] at hcov
    exact hcov

/-- Witness for C10: splitting a 5-page document every 2 pages yields
parts 1-2, 3-4, 5-5 named `_part1`, `_part2`, `_part3`, covering pages
1 to 5 exactly once. -/
theorem C10_every_n_split_witness :
    ghostscript.get_page_count okEnv "a.pdf" =
      (.ok 5, [Eff.gsPageCount "a.pdf"]) ∧
    (split_pdf okEnv "a.pdf" "/out" ⟨"every-n", none, none, none, some 2⟩ =
      (.ok ⟨(List.range ((5 + 2 - 1) / 2)).map
          (fun j => partName "/out" (fileStemD "a.pdf") (j + 1)), 5⟩,
        [Eff.gsPageCount "a.pdf"] ++ (List.range ((5 + 2 - 1) / 2)).map
          (fun j => Eff.gsExtract "a.pdf"
            (partName "/out" (fileStemD "a.pdf") (j + 1))
            (2 * j + 1) (min (2 * (j + 1)) 5))) ∧
    coveredPages ((List.range ((5 + 2 - 1) / 2)).map
        (fun j => Eff.gsExtract "a.pdf"
          (partName "/out" (fileStemD "a.pdf") (j + 1))
          (2 * j + 1) (min (2 * (j + 1)) 5))) = List.range' 1 5) :=
  ⟨by decide,
    C10_every_n_split okEnv "a.pdf" "/out" "/usr/bin/gs"
      ⟨"every-n", none, none, none, some 2⟩ 2 5 [Eff.gsPageCount "a.pdf"]
      rfl rfl (by decide) (by decide) (by decide) (by decide) (by decide)
      (by decide) (by decide) rfl (fun _ _ _ _ => rfl)⟩

end Smash
